import Mathlib

/-!
Verification of the poptrack-api filter-composition and pagination engine.

The definitions below are a shallow embedding of the TypeScript sources:
  * `src/utils/pagination.ts` — `getPaginationParams`, `paginate`,
    `createPaginatedResponse`;
  * `src/utils/queryOptimizer.ts` — `PropertyQueryBuilder`,
    `getOptimizedPaginationParams`;
  * `src/controllers/frontend.property.controllers.ts` — `getProperties`
    (filter pipeline and the archived-parameter handling).

JavaScript numbers are modelled by `JSNum` (NaN, the two infinities, and
finite values restricted to the integer fragment the query layer actually
manipulates: page/limit/price/bedroom counts are integral in every request
the claims quantify over; non-integral finite values never arise in them).
-/

/-- Model of a JavaScript number as used by the query layer: `NaN`, `+Infinity`,
`-Infinity`, or a finite value (integer fragment). -/
inductive JSNum where
  | nan : JSNum
  | inf : JSNum
  | negInf : JSNum
  | int : Int → JSNum
deriving DecidableEq, Repr

namespace JSNum

/-- JavaScript `isNaN` on an already-coerced number. -/
def isNaN : JSNum → Bool
  | .nan => true
  | _ => false

/-- JavaScript `<` on numbers: any comparison involving NaN is false. -/
def jsLt : JSNum → JSNum → Bool
  | .nan, _ => false
  | _, .nan => false
  | .negInf, .negInf => false
  | .negInf, _ => true
  | _, .negInf => false
  | .inf, _ => false
  | _, .inf => true
  | .int a, .int b => a < b

/-- JavaScript `Math.max` on two numbers: NaN if either argument is NaN. -/
def jsMax (a b : JSNum) : JSNum :=
  if a.isNaN || b.isNaN then .nan else if a.jsLt b then b else a

/-- JavaScript `Math.min` on two numbers: NaN if either argument is NaN. -/
def jsMin (a b : JSNum) : JSNum :=
  if a.isNaN || b.isNaN then .nan else if a.jsLt b then a else b

/-- JavaScript subtraction: NaN propagates, `Infinity - Infinity = NaN`. -/
def sub : JSNum → JSNum → JSNum
  | .nan, _ => .nan
  | _, .nan => .nan
  | .inf, .inf => .nan
  | .inf, _ => .inf
  | .negInf, .negInf => .nan
  | .negInf, _ => .negInf
  | .int _, .inf => .negInf
  | .int _, .negInf => .inf
  | .int a, .int b => .int (a - b)

/-- JavaScript multiplication: NaN propagates, `±Infinity * 0 = NaN`,
otherwise infinities follow the sign rule. -/
def mul : JSNum → JSNum → JSNum
  | .nan, _ => .nan
  | _, .nan => .nan
  | .inf, .inf => .inf
  | .inf, .negInf => .negInf
  | .negInf, .inf => .negInf
  | .negInf, .negInf => .inf
  | .inf, .int n => if n = 0 then .nan else if 0 < n then .inf else .negInf
  | .int n, .inf => if n = 0 then .nan else if 0 < n then .inf else .negInf
  | .negInf, .int n => if n = 0 then .nan else if 0 < n then .negInf else .inf
  | .int n, .negInf => if n = 0 then .nan else if 0 < n then .negInf else .inf
  | .int a, .int b => .int (a * b)

end JSNum

/-- Decimal digit value of a character, `none` for a non-digit. -/
def digitVal (c : Char) : Option Nat :=
  if '0' ≤ c ∧ c ≤ '9' then some (c.toNat - '0'.toNat) else none

/-- Accumulate a decimal natural number from a digit list; `none` on any
non-digit. -/
def parseDigits : List Char → Nat → Option Nat
  | [], acc => some acc
  | c :: cs, acc =>
    match digitVal c with
    | some d => parseDigits cs (acc * 10 + d)
    | none => none

/-- Parse an optionally `-`-signed decimal integer literal. -/
def parseIntChars (cs : List Char) : Option Int :=
  match cs with
  | [] => none
  | '-' :: rest =>
    if rest = [] then none else (parseDigits rest 0).map (fun n => -(n : Int))
  | _ => (parseDigits cs 0).map (fun n => (n : Int))

/-- ASCII whitespace, the fragment of the characters JavaScript string-to-number
coercion strips from both ends. -/
def jsWhitespace (c : Char) : Bool :=
  c = ' ' ∨ c = '\t' ∨ c = '\n' ∨ c = '\r'

/-- Strip leading and trailing whitespace from a character list. -/
def trimChars (cs : List Char) : List Char :=
  ((cs.dropWhile jsWhitespace).reverse.dropWhile jsWhitespace).reverse

/-- JavaScript `Number(s)` / unary `+s` string-to-number coercion, on the
string fragment reaching the pagination layer: the empty or all-whitespace
string coerces to `0`, an (optionally `-`-signed) decimal integer literal to
its value, the `Infinity` literals to the infinities, and everything else
(including non-numeric text such as `"abc"`) to NaN. -/
def jsToNumber (s : String) : JSNum :=
  let t := trimChars s.data
  if t = [] then .int 0
  else if t = "Infinity".data then .inf
  else if t = "-Infinity".data then .negInf
  else
    match parseIntChars t with
    | some n => .int n
    | none => .nan

/-- The raw `page`/`limit` query-string parameters of a request
(`PaginationQuery` in `src/utils/pagination.ts`): each is an optional string. -/
structure PaginationQuery where
  page : Option String := none
  limit : Option String := none
deriving DecidableEq, Repr

/-- The validated pagination options produced by `getPaginationParams`
(`PaginationOptions` in `src/utils/pagination.ts`, the `page`/`limit` part). -/
structure PaginationOptions where
  page : JSNum
  limit : JSNum
deriving DecidableEq, Repr

/-- The coerced page number `+page` after the `{ page = 1 } = req.query`
destructuring (src/utils/pagination.ts:29,32). -/
def pageNumOf : Option String → JSNum
  | none => .int 1
  | some s => jsToNumber s

/-- The coerced limit number `+limit` after the `{ limit = 10 } = req.query`
destructuring (src/utils/pagination.ts:29,33). -/
def limitNumOf : Option String → JSNum
  | none => .int 10
  | some s => jsToNumber s

/-- `getPaginationParams` (src/utils/pagination.ts:28-39):
destructures `{ page = 1, limit = 10 } = req.query`, coerces each with
unary `+`, and replaces a value that is NaN or `< 1` by its default
(`page = 1`, `limit = 10`). There is no upper clamp. -/
def getPaginationParams (q : PaginationQuery) : PaginationOptions :=
  let pageNum := pageNumOf q.page
  let limitNum := limitNumOf q.limit
  { page := if pageNum.isNaN || pageNum.jsLt (.int 1) then .int 1 else pageNum
    limit := if limitNum.isNaN || limitNum.jsLt (.int 1) then .int 10 else limitNum }

/-- The option bag accepted by `PropertyQueryBuilder` and
`getOptimizedPaginationParams` (`QueryOptimizationOptions` in
`src/utils/queryOptimizer.ts`); every field is optional. -/
structure QueryOptimizationOptions where
  maxLimit : Option Int := none
  defaultLimit : Option Int := none
  enableTextSearch : Option Bool := none
  enableGeospatial : Option Bool := none
deriving DecidableEq, Repr

/-- JavaScript `x || d` on an optional number: `undefined`, `0` (and NaN,
outside this integer fragment) are falsy and yield the default. -/
def jsOrDefault (o : Option Int) (d : Int) : Int :=
  match o with
  | none => d
  | some n => if n = 0 then d else n

/-- Result record of `getOptimizedPaginationParams`. -/
structure OptimizedPaginationParams where
  page : JSNum
  limit : JSNum
  skip : JSNum
  maxLimit : Int
deriving DecidableEq, Repr

/-- `getOptimizedPaginationParams` (src/utils/queryOptimizer.ts:150-167):
destructures `{ page = 1, limit = options.defaultLimit || 10 }`, sets
`maxLimit = options.maxLimit || 100`, then computes
`page = Math.max(1, +page)`, `limit = Math.min(maxLimit, Math.max(1, +limit))`
and `skip = (page - 1) * limit`. Note there is no NaN check: `Math.max`
and `Math.min` propagate NaN. -/
def getOptimizedPaginationParams (q : PaginationQuery)
    (options : QueryOptimizationOptions := {}) : OptimizedPaginationParams :=
  let limitDefault : Int := jsOrDefault options.defaultLimit 10
  let pageRaw : JSNum := match q.page with
    | none => .int 1
    | some s => jsToNumber s
  let limitRaw : JSNum := match q.limit with
    | none => .int limitDefault
    | some s => jsToNumber s
  let maxLimit : Int := jsOrDefault options.maxLimit 100
  let currentPage := JSNum.jsMax (.int 1) pageRaw
  let currentLimit := JSNum.jsMin (.int maxLimit) (JSNum.jsMax (.int 1) limitRaw)
  { page := currentPage
    limit := currentLimit
    skip := (currentPage.sub (.int 1)).mul currentLimit
    maxLimit := maxLimit }

/-!
## The paginate orchestration (src/utils/pagination.ts:41-82)

`paginate` receives validated integer pagination parameters (the fragment in
which `page` and `limit` are finite integers, as every claim quantifies),
issues the skip/limit-bounded page read and the predicate count against the
storage collaborator, joins both results (`Promise.all`), and composes the
response envelope. A failed operation is modelled by `Except`.
-/

/-- `Math.ceil(a / b)` for an integer numerator and a positive integer
denominator, as evaluated in `totalPages = Math.ceil(total / currentLimit)`. -/
def jsCeilDivInt (a b : Int) : Int := -((-a).ediv b)

/-- The `pagination` block of a `PaginationResult`
(src/utils/pagination.ts:13-20, computed at lines 67-80). -/
structure PaginationMeta where
  page : Int
  limit : Int
  total : Int
  totalPages : Int
  hasNext : Bool
  hasPrevious : Bool
deriving DecidableEq, Repr

/-- The pure metadata computation of `paginate`
(src/utils/pagination.ts:67-80): `totalPages = Math.ceil(total / limit)`,
`hasNext = page < totalPages`, `hasPrevious = page > 1`. -/
def paginateMeta (page limit total : Int) : PaginationMeta :=
  let totalPages := jsCeilDivInt total limit
  { page := page
    limit := limit
    total := total
    totalPages := totalPages
    hasNext := decide (page < totalPages)
    hasPrevious := decide (1 < page) }

/-- A sort specification (field path, `1` or `-1`), as in
`PaginationOptions.sort`. -/
def SortSpec : Type := List (String × Int)

/-- A populate specification (`string | string[]`), as in
`PaginationOptions.populate`. -/
def PopulateSpec : Type := List String

/-- The full `PaginationOptions` record passed to `paginate`
(src/utils/pagination.ts:4-9), in the integer fragment. -/
structure PaginateCallOptions where
  page : Option Int := none
  limit : Option Int := none
  populate : Option PopulateSpec := none
  sort : Option SortSpec := none

/-- One storage operation issued by `paginate`: either the bounded page read
(`model.find(query)` with optional populate/sort, then `.skip(skip)`
`.limit(currentLimit)`, lines 52-63) or the unbounded count
(`model.countDocuments(query)`, line 64). -/
inductive StorageOp (Q : Type) where
  | findPage (q : Q) (populate : Option PopulateSpec) (sort : Option SortSpec)
      (skip limit : Int)
  | countDocs (q : Q)

/-- The predicate a storage operation runs against. -/
def StorageOp.queryOf {Q : Type} : StorageOp Q → Q
  | .findPage q _ _ _ _ => q
  | .countDocs q => q

/-- The two storage operations `paginate` hands to `Promise.all`
(src/utils/pagination.ts:62-65), in issue order. -/
def paginateOps {Q : Type} (q : Q) (options : PaginateCallOptions) :
    List (StorageOp Q) :=
  let page := options.page.getD 1
  let limit := options.limit.getD 10
  let skip := (page - 1) * limit
  [.findPage q options.populate options.sort skip limit, .countDocs q]

/-- The storage collaborator: how each of the two operations responds, each
either succeeding or failing (`Except`). -/
structure Storage (ε α Q : Type) where
  findPage : Q → Option PopulateSpec → Option SortSpec → Int → Int →
    Except ε (List α)
  countDocuments : Q → Except ε Int

/-- The response envelope (`PaginationResult<T>`,
src/utils/pagination.ts:11-21). -/
structure ResponseEnvelope (α : Type) where
  data : List α
  pagination : PaginationMeta
deriving Repr

/-- Join of the two operation results, as performed by
`await Promise.all([...])` followed by the envelope construction
(src/utils/pagination.ts:62-82): the envelope exists only when both
operations succeeded; either failure fails the whole call. -/
def paginateJoin {ε α : Type} (page limit : Int)
    (findResult : Except ε (List α)) (countResult : Except ε Int) :
    Except ε (ResponseEnvelope α) :=
  match findResult, countResult with
  | .ok data, .ok total => .ok ⟨data, paginateMeta page limit total⟩
  | .error e, _ => .error e
  | .ok _, .error e => .error e

/-- `paginate` (src/utils/pagination.ts:41-82) against a storage
collaborator: destructures `{ page = 1, limit = 10, populate, sort }`,
computes `skip = (page - 1) * limit`, issues the two operations of
`paginateOps` and joins them. -/
def paginate {ε α Q : Type} (s : Storage ε α Q) (q : Q)
    (options : PaginateCallOptions := {}) : Except ε (ResponseEnvelope α) :=
  let page := options.page.getD 1
  let limit := options.limit.getD 10
  let skip := (page - 1) * limit
  paginateJoin page limit
    (s.findPage q options.populate options.sort skip limit)
    (s.countDocuments q)

/-!
## PropertyQueryBuilder (src/utils/queryOptimizer.ts:14-145)

The builder's accumulated `query` object only ever receives the fixed key
set `type`, `price`, `$or`, `location.city`, `bedrooms`, `bathrooms`,
`amenities`, `$text`, `location.coordinates` (plus `archived`, written by
the controllers after `build()`), so the JavaScript object is modelled as a
structure with one optional field per key; a `none` field is an absent key.
-/

/-- A `{ $regex: pattern, $options: opts }` condition. -/
structure RegexCond where
  pattern : List Char
  options : String
deriving DecidableEq, Repr

/-- One element of a `$or` array: a single-key object binding a field path
to a regex condition. -/
structure OrCond where
  field : String
  regex : RegexCond
deriving DecidableEq, Repr

/-- A `{ $gte?, $lte? }` range condition (integer fragment). -/
structure RangeCond where
  gte : Option Int := none
  lte : Option Int := none
deriving DecidableEq, Repr

/-- A `$near` geospatial condition: GeoJSON point `[lng, lat]` and
`$maxDistance` in meters (integer fragment). -/
structure GeoNearCond where
  lng : Int
  lat : Int
  maxDistance : Int
deriving DecidableEq, Repr

/-- The accumulated storage-native predicate object. Each field models one
possible key of the JavaScript query object; `none` means the key is absent. -/
structure Query where
  type : Option String := none
  price : Option RangeCond := none
  orGroup : Option (List OrCond) := none
  locationCity : Option String := none
  bedrooms : Option Int := none
  bathrooms : Option Int := none
  amenitiesAll : Option (List String) := none
  textSearch : Option String := none
  geoNear : Option GeoNearCond := none
  archived : Option Bool := none
deriving DecidableEq, Repr

/-- The resolved builder options after the constructor merges the defaults
`{maxLimit:100, defaultLimit:10, enableTextSearch:false,
enableGeospatial:false}` with the caller's option bag. -/
structure ResolvedOptions where
  maxLimit : Int
  defaultLimit : Int
  enableTextSearch : Bool
  enableGeospatial : Bool
deriving DecidableEq, Repr

/-- Builder state: the mutable `query` accumulator plus the resolved
options. -/
structure PropertyQueryBuilder where
  query : Query
  options : ResolvedOptions
deriving DecidableEq, Repr

namespace PropertyQueryBuilder

/-- The constructor (src/utils/queryOptimizer.ts:18-26): starts from an
empty query and spreads the caller's options over the defaults. -/
def create (options : QueryOptimizationOptions := {}) : PropertyQueryBuilder :=
  { query := {}
    options :=
      { maxLimit := options.maxLimit.getD 100
        defaultLimit := options.defaultLimit.getD 10
        enableTextSearch := options.enableTextSearch.getD false
        enableGeospatial := options.enableGeospatial.getD false } }

/-- JavaScript truthiness of a string: the empty string is falsy. -/
def truthyStr (s : String) : Bool := s ≠ ""

/-- JavaScript truthiness of an optional number (integer fragment):
`undefined` and `0` are falsy. -/
def truthyOptInt (o : Option Int) : Bool :=
  match o with
  | none => false
  | some n => n ≠ 0

/-- `addTypeFilter` (src/utils/queryOptimizer.ts:31-36). -/
def addTypeFilter (t : String) (b : PropertyQueryBuilder) : PropertyQueryBuilder :=
  if truthyStr t then { b with query := { b.query with type := some t } } else b

/-- `addPriceFilter` (src/utils/queryOptimizer.ts:41-48): guarded by the
truthiness of `minPrice || maxPrice`, each side is then written only when
itself truthy — so a bound of `0` is silently dropped. -/
def addPriceFilter (minPrice maxPrice : Option Int) (b : PropertyQueryBuilder) :
    PropertyQueryBuilder :=
  if truthyOptInt minPrice || truthyOptInt maxPrice then
    let cond : RangeCond :=
      { gte := if truthyOptInt minPrice then minPrice else none
        lte := if truthyOptInt maxPrice then maxPrice else none }
    { b with query := { b.query with price := some cond } }
  else b

/-- The three-element `$or` array `addLocationFilter` writes
(src/utils/queryOptimizer.ts:55-62): anchored case-insensitive city match,
city contains, address contains. -/
def locationOrGroup (location : String) : List OrCond :=
  [ { field := "location.city"
      regex := { pattern := '^' :: location.data ++ ['$'], options := "i" } }
  , { field := "location.city"
      regex := { pattern := location.data, options := "i" } }
  , { field := "location.address"
      regex := { pattern := location.data, options := "i" } } ]

/-- `addLocationFilter` (src/utils/queryOptimizer.ts:53-65): sets `$or` to
the three-element array of `locationOrGroup`. -/
def addLocationFilter (location : String) (b : PropertyQueryBuilder) :
    PropertyQueryBuilder :=
  if truthyStr location then
    { b with query := { b.query with orGroup := some (locationOrGroup location) } }
  else b

/-- `addCityFilter` (src/utils/queryOptimizer.ts:70-75). -/
def addCityFilter (city : String) (b : PropertyQueryBuilder) : PropertyQueryBuilder :=
  if truthyStr city then
    { b with query := { b.query with locationCity := some city } }
  else b

/-- `addBedroomFilter` (src/utils/queryOptimizer.ts:80-85); the number `0`
is falsy and skipped. -/
def addBedroomFilter (bedrooms : Int) (b : PropertyQueryBuilder) :
    PropertyQueryBuilder :=
  if bedrooms ≠ 0 then
    { b with query := { b.query with bedrooms := some bedrooms } }
  else b

/-- `addBathroomFilter` (src/utils/queryOptimizer.ts:90-95). -/
def addBathroomFilter (bathrooms : Int) (b : PropertyQueryBuilder) :
    PropertyQueryBuilder :=
  if bathrooms ≠ 0 then
    { b with query := { b.query with bathrooms := some bathrooms } }
  else b

/-- `addAmenitiesFilter` (src/utils/queryOptimizer.ts:100-105): writes
`{ $all: amenities }` when the list is non-empty. -/
def addAmenitiesFilter (amenities : List String) (b : PropertyQueryBuilder) :
    PropertyQueryBuilder :=
  if amenities.length > 0 then
    { b with query := { b.query with amenitiesAll := some amenities } }
  else b

/-- `addTextSearch` (src/utils/queryOptimizer.ts:110-115): active only when
the term is truthy and text search was enabled. -/
def addTextSearch (searchTerm : String) (b : PropertyQueryBuilder) :
    PropertyQueryBuilder :=
  if truthyStr searchTerm && b.options.enableTextSearch then
    { b with query := { b.query with textSearch := some searchTerm } }
  else b

/-- `addGeospatialFilter` (src/utils/queryOptimizer.ts:120-130): guarded by
`lat && lng && radius && enableGeospatial`, so a zero latitude, longitude or
radius makes the whole call a no-op. -/
def addGeospatialFilter (lat lng radius : Int) (b : PropertyQueryBuilder) :
    PropertyQueryBuilder :=
  if lat ≠ 0 && lng ≠ 0 && radius ≠ 0 && b.options.enableGeospatial then
    let cond : GeoNearCond := { lng := lng, lat := lat, maxDistance := radius }
    { b with query := { b.query with geoNear := some cond } }
  else b

/-- `build` (src/utils/queryOptimizer.ts:135-137): returns the accumulated
query. -/
def build (b : PropertyQueryBuilder) : Query := b.query

end PropertyQueryBuilder

/-!
## Storage-native condition semantics

The builder emits conditions of the document store's predicate language
(`$gte`/`$lte`, `$all`, plain equality). Their satisfaction relation against
a record is the store's documented operator semantics: a range condition
holds when every present side holds, `$all` holds when every listed value is
an element of the record's array field, an equality condition holds on equal
values, and an absent key constrains nothing.
-/

/-- Satisfaction of a `{ $gte?, $lte? }` condition by a field value. -/
def RangeCond.matches (c : RangeCond) (n : Int) : Bool :=
  (match c.gte with | none => true | some m => decide (m ≤ n)) &&
  (match c.lte with | none => true | some m => decide (n ≤ m))

/-- Satisfaction of a `{ $all: values }` condition by an array-valued
field. -/
def setContainsAllMatches (values fieldValues : List String) : Bool :=
  values.all (fun v => fieldValues.contains v)

/-- Satisfaction of an optional equality condition on a boolean field: an
absent condition constrains nothing. -/
def boolCondMatches (cond : Option Bool) (fieldValue : Bool) : Bool :=
  match cond with
  | none => true
  | some b => b == fieldValue

/-!
## The getProperties controller pipeline
(src/controllers/frontend.property.controllers.ts:10-68)

The controller destructures the raw query parameters (each an optional
string, except `amenities`, which may be a string or an array of strings),
feeds the truthy ones through the builder in selectivity order, then writes
the `archived` key directly onto the built query.
-/

/-- A raw `amenities` query value: `string | string[]`. -/
inductive AmenitiesParam where
  | str (s : String)
  | arr (l : List String)
deriving DecidableEq, Repr

/-- JavaScript truthiness of an optional `string | string[]` value: absent
and the empty string are falsy; every array (even empty) is truthy. -/
def truthyAmenities : Option AmenitiesParam → Bool
  | none => false
  | some (.str s) => s ≠ ""
  | some (.arr _) => true

/-- Modelled from the spec: `parseAmenitiesQuery` (imported by the frontend
controller from `src/utils/queryOptimizer.ts` but absent from the provided
sources) normalizes the `amenities` query value — "string or array of
strings" per the external-interface table — to an array of strings. -/
def parseAmenitiesQuery : AmenitiesParam → List String
  | .str s => [s]
  | .arr l => l

/-- `Number(s)` restricted to the finite fragment the controllers hand to the
builder: a NaN coercion is represented by `0`, which is falsy in every
builder guard exactly as NaN is, so no builder ever stores it; infinite
coercions lie outside the modelled fragment. -/
def coerceIntArg (s : String) : Int :=
  match jsToNumber s with
  | .int n => n
  | _ => 0

/-- The raw query parameters of a property-search request, as destructured
by the frontend `getProperties` (lines 13-23). -/
structure PropertySearchParams where
  type : Option String := none
  city : Option String := none
  minPrice : Option String := none
  maxPrice : Option String := none
  bedrooms : Option String := none
  bathrooms : Option String := none
  amenities : Option AmenitiesParam := none
  location : Option String := none
  archived : Option String := none
deriving DecidableEq, Repr

/-- The archived-parameter handling both property controllers apply to the
built query (frontend.property.controllers.ts:51-58 and the admin
controller's identical chain): absent `archived` writes `archived: false`,
the exact strings `"true"`/`"false"` write the corresponding boolean, and
any other string leaves the query untouched. -/
def applyArchivedFilter (archived : Option String) (q : Query) : Query :=
  match archived with
  | none => { q with archived := some false }
  | some s =>
    if s = "true" then { q with archived := some true }
    else if s = "false" then { q with archived := some false }
    else q

/-!
## The builder operations as first-class values

The seven criterion-adding calls the property controllers make are also
reified as an inductive so that the controller pipeline is the fold of its
guarded call sequence and the commutation claims quantify over operations.
-/

/-- One of the seven criterion-adding operations the property controllers
use, with its arguments. -/
inductive AddOp where
  | typeF (t : String)
  | priceF (minPrice maxPrice : Option Int)
  | locationF (l : String)
  | cityF (c : String)
  | bedroomsF (n : Int)
  | bathroomsF (n : Int)
  | amenitiesF (l : List String)
deriving DecidableEq, Repr

/-- Apply an operation to a builder, dispatching to the corresponding
`PropertyQueryBuilder` method. -/
def AddOp.apply : AddOp → PropertyQueryBuilder → PropertyQueryBuilder
  | .typeF t, b => b.addTypeFilter t
  | .priceF lo hi, b => b.addPriceFilter lo hi
  | .locationF l, b => b.addLocationFilter l
  | .cityF c, b => b.addCityFilter c
  | .bedroomsF n, b => b.addBedroomFilter n
  | .bathroomsF n, b => b.addBathroomFilter n
  | .amenitiesF l, b => b.addAmenitiesFilter l

/-- The criterion (query key) an operation targets. -/
def AddOp.target : AddOp → Nat
  | .typeF _ => 0
  | .priceF _ _ => 1
  | .locationF _ => 2
  | .cityF _ => 3
  | .bedroomsF _ => 4
  | .bathroomsF _ => 5
  | .amenitiesF _ => 6

/-- The guarded `add*` call sequence of the frontend `getProperties`
(frontend.property.controllers.ts:33-48), in source order; an element is
present exactly when the controller's truthiness guard fires, with the
argument the controller passes (`minPrice ? Number(minPrice) : undefined`
for the price sides, `Number(...)` for the counts, `parseAmenitiesQuery`
for amenities). -/
def propertyFilterOps (p : PropertySearchParams) : List AddOp :=
  (match p.type with
    | some t => if t ≠ "" then [AddOp.typeF t] else []
    | none => []) ++
  (match p.location with
    | some l => if l ≠ "" then [AddOp.locationF l] else []
    | none => []) ++
  (match p.city with
    | some c => if c ≠ "" then [AddOp.cityF c] else []
    | none => []) ++
  (let minArg : Option Int := match p.minPrice with
    | some s => if s ≠ "" then some (coerceIntArg s) else none
    | none => none
   let maxArg : Option Int := match p.maxPrice with
    | some s => if s ≠ "" then some (coerceIntArg s) else none
    | none => none
   if minArg.isSome || maxArg.isSome then [AddOp.priceF minArg maxArg] else []) ++
  (match p.bedrooms with
    | some s => if s ≠ "" then [AddOp.bedroomsF (coerceIntArg s)] else []
    | none => []) ++
  (match p.bathrooms with
    | some s => if s ≠ "" then [AddOp.bathroomsF (coerceIntArg s)] else []
    | none => []) ++
  (if truthyAmenities p.amenities then
    match p.amenities with
    | some a => [AddOp.amenitiesF (parseAmenitiesQuery a)]
    | none => []
  else [])

/-- The builder state after the frontend `getProperties` has run its guarded
`add*` calls (frontend.property.controllers.ts:25-48): the constructor with
the literal option bag, folded over the call sequence. -/
def buildPropertyFilters (p : PropertySearchParams) : PropertyQueryBuilder :=
  (propertyFilterOps p).foldl (fun b op => op.apply b)
    (PropertyQueryBuilder.create
      { maxLimit := some 100, defaultLimit := some 10
        enableTextSearch := some false, enableGeospatial := some false })

/-- The complete query built by the frontend `getProperties`
(frontend.property.controllers.ts:25-58): the builder pipeline, `build()`,
then the archived chain written directly onto the built query. -/
def getPropertiesQuery (p : PropertySearchParams) : Query :=
  applyArchivedFilter p.archived (buildPropertyFilters p).build

/-!
## Helper lemmas
-/

/-- `Math.ceil(t / l)` as computed by the orchestration agrees with the
mathematical ceiling of the rational quotient, for a positive divisor. -/
theorem jsCeilDivInt_eq_ceil (t l : Int) (hl : 1 ≤ l) :
    jsCeilDivInt t l = ⌈(t : ℚ) / (l : ℚ)⌉ := by
  obtain ⟨d, rfl⟩ : ∃ d : ℕ, l = (d : ℤ) :=
    ⟨l.toNat, (Int.toNat_of_nonneg (by omega)).symm⟩
  have h1 : ⌈(t : ℚ) / ((d : ℕ) : ℚ)⌉ = -⌊-((t : ℚ) / ((d : ℕ) : ℚ))⌋ := by
    rw [← Int.ceil_neg, neg_neg]
  have h2 : -((t : ℚ) / ((d : ℕ) : ℚ)) = ((-t : ℤ) : ℚ) / ((d : ℕ) : ℚ) := by
    push_cast; ring
  have h3 : jsCeilDivInt t (d : ℤ) = -((-t) / (d : ℤ)) := rfl
  rw [h3]
  push_cast
  rw [h1, h2, Rat.floor_intCast_div_natCast (-t) d]

/-- `Math.max(1, n)` on finite values is the integer maximum. -/
theorem jsMax_one_int (n : Int) : JSNum.jsMax (.int 1) (.int n) = .int (max 1 n) := by
  simp only [JSNum.jsMax, JSNum.isNaN, JSNum.jsLt, Bool.or_self, Bool.false_eq_true,
    if_false]
  by_cases h : (1 : Int) < n
  · simp [h, max_eq_right (le_of_lt h)]
  · simp [h, max_eq_left (le_of_not_lt h)]

/-- `Math.min(m, n)` on finite values is the integer minimum. -/
theorem jsMin_int (m n : Int) : JSNum.jsMin (.int m) (.int n) = .int (min m n) := by
  simp only [JSNum.jsMin, JSNum.isNaN, JSNum.jsLt, Bool.or_self, Bool.false_eq_true,
    if_false]
  by_cases h : m < n
  · simp [h, min_eq_left (le_of_lt h)]
  · simp [h, min_eq_right (le_of_not_lt h)]

/-- Every criterion-adding operation leaves the `archived` key of the
accumulated query untouched. -/
theorem AddOp.apply_archived (op : AddOp) (b : PropertyQueryBuilder) :
    (op.apply b).query.archived = b.query.archived := by
  cases op <;>
    simp only [AddOp.apply, PropertyQueryBuilder.addTypeFilter,
      PropertyQueryBuilder.addPriceFilter, PropertyQueryBuilder.addLocationFilter,
      PropertyQueryBuilder.addCityFilter, PropertyQueryBuilder.addBedroomFilter,
      PropertyQueryBuilder.addBathroomFilter,
      PropertyQueryBuilder.addAmenitiesFilter] <;>
    split <;> rfl

/-- Folding criterion-adding operations leaves the `archived` key untouched. -/
theorem foldl_apply_archived (ops : List AddOp) (b : PropertyQueryBuilder) :
    (ops.foldl (fun b op => op.apply b) b).query.archived = b.query.archived := by
  induction ops generalizing b with
  | nil => rfl
  | cons op rest ih => rw [List.foldl_cons, ih, AddOp.apply_archived]

/-- The builder pipeline of `getProperties` never writes an `archived` key. -/
theorem buildPropertyFilters_archived (p : PropertySearchParams) :
    (buildPropertyFilters p).build.archived = none := by
  unfold buildPropertyFilters PropertyQueryBuilder.build
  rw [foldl_apply_archived]
  rfl

/-!
## Claims
-/

/-- C1 (amended): for a present raw `limit`, `getPaginationParams` —
the function every request reaches through `createPaginatedResponse` —
returns the coerced value whenever it is a finite number `≥ 1`, with no
upper clamp (a valid limit above `maxLimit = 100` is used as-is), and the
default 10 when the coercion is NaN or `< 1`; `getOptimizedPaginationParams`
instead clamps the coerced value to `[1, maxLimit]` with `maxLimit = 100`
but applies no default: a NaN coercion propagates to the computed limit and
a finite coercion `< 1` becomes 1, not 10. -/
theorem claim_C1_amended (p : Option String) (s : String) :
    (jsToNumber s = .nan →
      (getPaginationParams { page := p, limit := some s }).limit = .int 10 ∧
      (getOptimizedPaginationParams { page := p, limit := some s }).limit = .nan) ∧
    (∀ n : Int, jsToNumber s = .int n →
      (getPaginationParams { page := p, limit := some s }).limit =
        (if n < 1 then .int 10 else .int n) ∧
      (getOptimizedPaginationParams { page := p, limit := some s }).limit =
        .int (min 100 (max 1 n))) := by
  constructor
  · intro h
    constructor
    · simp [getPaginationParams, limitNumOf, h, JSNum.isNaN]
    · simp [getOptimizedPaginationParams, h, jsOrDefault, JSNum.jsMax, JSNum.jsMin,
        JSNum.isNaN]
  · intro n h
    constructor
    · by_cases hn : n < 1 <;>
        simp [getPaginationParams, limitNumOf, h, JSNum.isNaN, JSNum.jsLt, hn]
    · simp only [getOptimizedPaginationParams, h, jsOrDefault]
      rw [jsMax_one_int, jsMin_int]

/-- C1: counterexample to the claim as stated — the valid requested limit
`"500"` exceeds `maxLimit = 100` yet `getPaginationParams` computes 500, not
100 (there is no clamp on the request path); and on
`getOptimizedPaginationParams` a NaN coercion (`"abc"`) is not replaced by
the default 10 (it propagates as NaN) and `"0"` is clamped to 1, not
defaulted to 10. -/
theorem claim_C1_counterexample :
    (getPaginationParams { limit := some "500" }).limit = .int 500 ∧
    JSNum.int 500 ≠ JSNum.int 100 ∧
    (getOptimizedPaginationParams { limit := some "abc" }).limit = .nan ∧
    (getOptimizedPaginationParams { limit := some "0" }).limit = .int 1 := by
  refine ⟨by decide, by decide, by decide, by decide⟩

/-- C1: witness instantiating the amended claim at the concrete limit
`"250"`. -/
theorem claim_C1_witness :
    (getPaginationParams { limit := some "250" }).limit = .int 250 ∧
    (getOptimizedPaginationParams { limit := some "250" }).limit = .int 100 := by
  have h := (claim_C1_amended none "250").2 250 (by decide)
  refine ⟨?_, ?_⟩
  · rw [h.1]; decide
  · rw [h.2]; decide

/-- C2 (amended): the computed page equals the numeric coercion of the raw
page value whenever that coercion is a non-NaN number `≥ 1` — including
`+Infinity`, which the `isNaN`-only check lets through — and equals the
default 1 when the coercion is NaN, `-Infinity` or `< 1` (in particular for
page in {missing, "0", "-1", "abc"}); the page computation never depends on
the raw limit value. -/
theorem claim_C2_amended (p l l' : Option String) :
    (∀ n : Int, pageNumOf p = .int n → 1 ≤ n →
      (getPaginationParams { page := p, limit := l }).page = .int n) ∧
    (∀ n : Int, pageNumOf p = .int n → n < 1 →
      (getPaginationParams { page := p, limit := l }).page = .int 1) ∧
    (pageNumOf p = .nan →
      (getPaginationParams { page := p, limit := l }).page = .int 1) ∧
    (pageNumOf p = .negInf →
      (getPaginationParams { page := p, limit := l }).page = .int 1) ∧
    (getPaginationParams { page := p, limit := l }).page =
      (getPaginationParams { page := p, limit := l' }).page ∧
    (getPaginationParams { page := none, limit := l }).page = .int 1 ∧
    (getPaginationParams { page := some "0", limit := l }).page = .int 1 ∧
    (getPaginationParams { page := some "-1", limit := l }).page = .int 1 ∧
    (getPaginationParams { page := some "abc", limit := l }).page = .int 1 := by
  refine ⟨?_, ?_, ?_, ?_, rfl, rfl, rfl, rfl, rfl⟩
  · intro n h hn
    have hn' : ¬ n < 1 := not_lt.mpr hn
    simp [getPaginationParams, h, JSNum.isNaN, JSNum.jsLt, hn']
  · intro n h hn
    simp [getPaginationParams, h, JSNum.isNaN, JSNum.jsLt, hn]
  · intro h
    simp [getPaginationParams, h, JSNum.isNaN]
  · intro h
    simp [getPaginationParams, h, JSNum.isNaN, JSNum.jsLt]

/-- C2: counterexample to the claim as stated — the raw page `"Infinity"`
coerces to a non-finite value, so the claim requires the default 1, but the
code's `isNaN` check lets `Infinity` through and the computed page is
`Infinity`. -/
theorem claim_C2_counterexample :
    (getPaginationParams { page := some "Infinity" }).page = .inf ∧
    JSNum.inf ≠ JSNum.int 1 := by
  refine ⟨by decide, by decide⟩

/-- C2: witness instantiating the amended claim at the concrete page `"3"`
and at the listed invalid values. -/
theorem claim_C2_witness :
    (getPaginationParams { page := some "3", limit := some "7" }).page = .int 3 ∧
    (getPaginationParams { page := some "0", limit := some "7" }).page = .int 1 ∧
    (getPaginationParams { page := some "abc", limit := none }).page = .int 1 := by
  refine ⟨(claim_C2_amended (some "3") (some "7") none).1 3 (by decide) (by decide),
    (claim_C2_amended (some "0") (some "7") none).2.2.2.2.2.2.1,
    (claim_C2_amended (some "abc") none none).2.2.2.2.2.2.2.2⟩

/-- C3: for `page ≥ 1`, `limit ≥ 1`, `total ≥ 0`, the pagination summary has
`totalPages = 0` when `total = 0` and `⌈total / limit⌉` otherwise,
`hasNext = (page < totalPages)` and `hasPrevious = (page > 1)`; hence with
`total = 0` `hasNext` is false, while `hasPrevious` is still true for every
`page > 1`. -/
theorem claim_C3 (page limit total : Int) (hp : 1 ≤ page) (hl : 1 ≤ limit)
    (ht : 0 ≤ total) :
    (paginateMeta page limit total).totalPages =
      (if total = 0 then 0 else ⌈(total : ℚ) / (limit : ℚ)⌉) ∧
    (paginateMeta page limit total).hasNext =
      decide (page < (paginateMeta page limit total).totalPages) ∧
    (paginateMeta page limit total).hasPrevious = decide (1 < page) ∧
    (total = 0 → (paginateMeta page limit total).hasNext = false) ∧
    (1 < page → (paginateMeta page limit total).hasPrevious = true) := by
  have hz : Int.ediv 0 limit = 0 := Int.zero_ediv limit
  refine ⟨?_, rfl, rfl, ?_, ?_⟩
  · by_cases h0 : total = 0
    · subst h0
      simp [paginateMeta, jsCeilDivInt]
      omega
    · simp [h0, paginateMeta, jsCeilDivInt_eq_ceil total limit hl]
  · intro h0
    subst h0
    simp only [paginateMeta, jsCeilDivInt, neg_zero]
    simp only [decide_eq_false_iff_not, not_lt]
    omega
  · intro h1
    simp [paginateMeta, h1]

/-- C3: witness at the spec's example `summarize(page=2, limit=5, total=10)`,
which must yield `totalPages = 2`, `hasNext = false`, `hasPrevious = true`. -/
theorem claim_C3_witness :
    (paginateMeta 2 5 10).totalPages = 2 ∧
    (paginateMeta 2 5 10).hasNext = false ∧
    (paginateMeta 2 5 10).hasPrevious = true := by
  have h := claim_C3 2 5 10 (by norm_num) (by norm_num) (by norm_num)
  refine ⟨?_, ?_, ?_⟩
  · rw [h.1]
    norm_num
  · rw [h.2.1]
    have h2 : (paginateMeta 2 5 10).totalPages = 2 := by decide
    rw [h2]
    decide
  · rw [h.2.2.1]
    decide

/-- C4: the paginate orchestration issues exactly two storage operations —
the skip/limit-bounded page read and the unbounded count — both against the
same predicate; it returns a response envelope exactly when both operations
succeed, the envelope's data and total each coming from the respective
operation (no partial envelope), and fails whenever either operation
fails. -/
theorem claim_C4 {ε α Q : Type} (s : Storage ε α Q) (q : Q)
    (options : PaginateCallOptions) :
    (paginateOps q options).length = 2 ∧
    (∀ op ∈ paginateOps q options, op.queryOf = q) ∧
    ((∃ env, paginate s q options = .ok env) ↔
      (∃ d, s.findPage q options.populate options.sort
          ((options.page.getD 1 - 1) * options.limit.getD 10)
          (options.limit.getD 10) = .ok d) ∧
      (∃ t, s.countDocuments q = .ok t)) ∧
    (∀ env, paginate s q options = .ok env →
      s.findPage q options.populate options.sort
          ((options.page.getD 1 - 1) * options.limit.getD 10)
          (options.limit.getD 10) = .ok env.data ∧
      s.countDocuments q = .ok env.pagination.total ∧
      env.pagination =
        paginateMeta (options.page.getD 1) (options.limit.getD 10)
          env.pagination.total) ∧
    ((∃ e, s.findPage q options.populate options.sort
          ((options.page.getD 1 - 1) * options.limit.getD 10)
          (options.limit.getD 10) = .error e) ∨
      (∃ e, s.countDocuments q = .error e) →
      ∃ e, paginate s q options = .error e) := by
  refine ⟨rfl, ?_, ?_, ?_, ?_⟩
  · intro op hop
    simp only [paginateOps, List.mem_cons, List.mem_singleton, List.not_mem_nil,
      or_false] at hop
    rcases hop with rfl | rfl <;> rfl
  · cases hf : s.findPage q options.populate options.sort
        ((options.page.getD 1 - 1) * options.limit.getD 10)
        (options.limit.getD 10) <;>
      cases hc : s.countDocuments q <;>
      simp [paginate, paginateJoin, hf, hc]
  · intro env henv
    cases hf : s.findPage q options.populate options.sort
        ((options.page.getD 1 - 1) * options.limit.getD 10)
        (options.limit.getD 10) <;>
      cases hc : s.countDocuments q <;>
      simp [paginate, paginateJoin, hf, hc] at henv
    subst henv
    exact ⟨rfl, rfl, rfl⟩
  · intro h
    cases hf : s.findPage q options.populate options.sort
        ((options.page.getD 1 - 1) * options.limit.getD 10)
        (options.limit.getD 10) <;>
      cases hc : s.countDocuments q <;>
      simp [paginate, paginateJoin, hf, hc] at h ⊢

/-- A fixture storage collaborator over trivial types whose page read returns
`[7]` and whose count returns 1, for instantiating orchestration theorems. -/
def fixtureStorage : Storage String Nat Unit :=
  { findPage := fun _ _ _ _ _ => .ok [7]
    countDocuments := fun _ => .ok 1 }

/-- C4: witness — with a storage whose two operations succeed, the
orchestration returns an envelope. -/
theorem claim_C4_witness :
    ∃ env, paginate fixtureStorage () {} = .ok env :=
  ((claim_C4 fixtureStorage () {}).2.2.1).mpr ⟨⟨[7], rfl⟩, ⟨1, rfl⟩⟩

/-- C5 (amended): for a non-empty search term, the substring operation sets
exactly one OR-group of three case-insensitive pattern conditions — an
exact-match (anchored) variant and a contains variant for the city field,
but only a contains variant for the address field, with no anchored
address variant — and changes no other part of the accumulated query. -/
theorem claim_C5_amended (b : PropertyQueryBuilder) (term : String)
    (h : term ≠ "") :
    (b.addLocationFilter term).build.orGroup =
      some (PropertyQueryBuilder.locationOrGroup term) ∧
    PropertyQueryBuilder.locationOrGroup term =
      [ ⟨"location.city", ⟨'^' :: term.data ++ ['$'], "i"⟩⟩,
        ⟨"location.city", ⟨term.data, "i"⟩⟩,
        ⟨"location.address", ⟨term.data, "i"⟩⟩ ] ∧
    (∀ c ∈ PropertyQueryBuilder.locationOrGroup term, c.regex.options = "i") ∧
    (b.addLocationFilter term).build.type = b.build.type ∧
    (b.addLocationFilter term).build.price = b.build.price ∧
    (b.addLocationFilter term).build.locationCity = b.build.locationCity ∧
    (b.addLocationFilter term).build.bedrooms = b.build.bedrooms ∧
    (b.addLocationFilter term).build.bathrooms = b.build.bathrooms ∧
    (b.addLocationFilter term).build.amenitiesAll = b.build.amenitiesAll ∧
    (b.addLocationFilter term).build.textSearch = b.build.textSearch ∧
    (b.addLocationFilter term).build.geoNear = b.build.geoNear ∧
    (b.addLocationFilter term).build.archived = b.build.archived ∧
    (b.addLocationFilter term).options = b.options := by
  have hb : PropertyQueryBuilder.addLocationFilter term b =
      { b with query :=
        { b.query with orGroup := some (PropertyQueryBuilder.locationOrGroup term) } } := by
    simp [PropertyQueryBuilder.addLocationFilter, PropertyQueryBuilder.truthyStr, h]
  rw [hb]
  refine ⟨rfl, rfl, ?_, rfl, rfl, rfl, rfl, rfl, rfl, rfl, rfl, rfl, rfl⟩
  intro c hc
  simp only [PropertyQueryBuilder.locationOrGroup, List.mem_cons,
    List.mem_singleton, List.not_mem_nil, or_false] at hc
  rcases hc with rfl | rfl | rfl <;> rfl

/-- C5: counterexample to the claim as stated — for the term `"x"` the
OR-group has three entries, not four: it does not contain an exact-match
(anchored) variant for the address field. -/
theorem claim_C5_counterexample :
    (((PropertyQueryBuilder.create {}).addLocationFilter
        "x").build.orGroup.getD []).length = 3 ∧
    ({ field := "location.address"
       regex := { pattern := '^' :: "x".data ++ ['$'], options := "i" } } : OrCond) ∉
      (((PropertyQueryBuilder.create {}).addLocationFilter
        "x").build.orGroup.getD []) := by
  refine ⟨by decide, by decide⟩

/-- C5: witness instantiating the amended claim at the term `"London"` on a
fresh builder. -/
theorem claim_C5_witness :
    ((PropertyQueryBuilder.create {}).addLocationFilter "London").build.orGroup =
      some (PropertyQueryBuilder.locationOrGroup "London") ∧
    ((PropertyQueryBuilder.create {}).addLocationFilter "London").build.type =
      none :=
  ⟨(claim_C5_amended (PropertyQueryBuilder.create {}) "London" (by decide)).1,
   (claim_C5_amended (PropertyQueryBuilder.create {}) "London" (by decide)).2.2.2.1⟩

/-- C6 (amended): the range operation applies a provided side only when it is
nonzero — a bound equal to 0 is falsy and silently dropped, so `min = 0`
yields no lower bound and a call with only zero/absent sides is a complete
no-op; when both sides are provided and nonzero the built predicate is
equivalent to `min ≤ field ∧ field ≤ max`, and one-sided nonzero calls
apply exactly that side. -/
theorem claim_C6_amended (b : PropertyQueryBuilder) (lo hi : Int)
    (hlo : lo ≠ 0) (hhi : hi ≠ 0) :
    b.addPriceFilter none none = b ∧
    b.addPriceFilter (some 0) none = b ∧
    b.addPriceFilter none (some 0) = b ∧
    b.addPriceFilter (some 0) (some 0) = b ∧
    ((b.addPriceFilter (some lo) none).build.price =
        some { gte := some lo, lte := none } ∧
      ∀ n : Int, RangeCond.matches { gte := some lo, lte := none } n = true ↔
        lo ≤ n) ∧
    ((b.addPriceFilter none (some hi)).build.price =
        some { gte := none, lte := some hi } ∧
      ∀ n : Int, RangeCond.matches { gte := none, lte := some hi } n = true ↔
        n ≤ hi) ∧
    ((b.addPriceFilter (some lo) (some hi)).build.price =
        some { gte := some lo, lte := some hi } ∧
      ∀ n : Int, RangeCond.matches { gte := some lo, lte := some hi } n = true ↔
        (lo ≤ n ∧ n ≤ hi)) := by
  refine ⟨rfl, ?_, ?_, ?_, ⟨?_, ?_⟩, ⟨?_, ?_⟩, ⟨?_, ?_⟩⟩
  · simp [PropertyQueryBuilder.addPriceFilter, PropertyQueryBuilder.truthyOptInt]
  · simp [PropertyQueryBuilder.addPriceFilter, PropertyQueryBuilder.truthyOptInt]
  · simp [PropertyQueryBuilder.addPriceFilter, PropertyQueryBuilder.truthyOptInt]
  · simp [PropertyQueryBuilder.addPriceFilter, PropertyQueryBuilder.truthyOptInt,
      PropertyQueryBuilder.build, hlo]
  · intro n
    simp [RangeCond.matches]
  · simp [PropertyQueryBuilder.addPriceFilter, PropertyQueryBuilder.truthyOptInt,
      PropertyQueryBuilder.build, hhi]
  · intro n
    simp [RangeCond.matches]
  · simp [PropertyQueryBuilder.addPriceFilter, PropertyQueryBuilder.truthyOptInt,
      PropertyQueryBuilder.build, hlo, hhi]
  · intro n
    simp [RangeCond.matches]

/-- C6: counterexample to the claim as stated — with `min = 0` provided
(alone or with a max), no `≥ 0` bound is applied: the lone call is a
complete no-op and the paired call records only the upper bound. -/
theorem claim_C6_counterexample :
    ((PropertyQueryBuilder.create {}).addPriceFilter (some 0) none).build.price =
      none ∧
    ((PropertyQueryBuilder.create {}).addPriceFilter (some 0)
        (some 500000)).build.price = some { gte := none, lte := some 500000 } := by
  refine ⟨by decide, by decide⟩

/-- C6: witness instantiating the amended claim at the spec's example range
`[100000, 500000]`. -/
theorem claim_C6_witness :
    ((PropertyQueryBuilder.create {}).addPriceFilter (some 100000)
        (some 500000)).build.price = some { gte := some 100000, lte := some 500000 } ∧
    (RangeCond.matches { gte := some 100000, lte := some 500000 } 300000 = true) ∧
    (RangeCond.matches { gte := some 100000, lte := some 500000 } 99999 ≠ true) := by
  have h := claim_C6_amended (PropertyQueryBuilder.create {}) 100000 500000
    (by decide) (by decide)
  refine ⟨h.2.2.2.2.2.2.1, ?_, ?_⟩
  · exact (h.2.2.2.2.2.2.2 300000).mpr (by norm_num)
  · intro hc
    have := (h.2.2.2.2.2.2.2 99999).mp hc
    omega

/-- C7: for a non-empty value list the set-containment operation writes
`{ $all: values }`, whose satisfaction by a record's array field holds
exactly when every listed value is an element of that field (superset, not
mere intersection); an empty list leaves the builder unchanged. -/
theorem claim_C7 (b : PropertyQueryBuilder) (vals : List String)
    (h : vals ≠ []) :
    (b.addAmenitiesFilter vals).build.amenitiesAll = some vals ∧
    (∀ fieldValues : List String,
      setContainsAllMatches vals fieldValues = true ↔
        ∀ v ∈ vals, v ∈ fieldValues) ∧
    b.addAmenitiesFilter [] = b := by
  refine ⟨?_, ?_, rfl⟩
  · have hl : vals.length > 0 := List.length_pos.mpr h
    simp [PropertyQueryBuilder.addAmenitiesFilter, PropertyQueryBuilder.build, hl]
  · intro fieldValues
    simp [setContainsAllMatches, List.all_eq_true]

/-- C7: witness at the spec's example `["pool","gym"]`: the condition is
recorded, a superset array matches, and a mere-intersection array does
not. -/
theorem claim_C7_witness :
    ((PropertyQueryBuilder.create {}).addAmenitiesFilter
        ["pool", "gym"]).build.amenitiesAll = some ["pool", "gym"] ∧
    setContainsAllMatches ["pool", "gym"] ["gym", "wifi", "pool"] = true ∧
    setContainsAllMatches ["pool", "gym"] ["pool", "wifi"] ≠ true := by
  have h := claim_C7 (PropertyQueryBuilder.create {}) ["pool", "gym"] (by decide)
  refine ⟨h.1, (h.2.1 ["gym", "wifi", "pool"]).mpr (by decide), ?_⟩
  intro hc
  have := (h.2.1 ["pool", "wifi"]).mp hc
  have hgym := this "gym" (by decide)
  simp at hgym

/-- C8: criterion-adding operations targeting distinct criteria commute —
applying two such operations in either order and then `build()` yields the
same composite predicate object. -/
theorem claim_C8 (b : PropertyQueryBuilder) (o1 o2 : AddOp)
    (h : o1.target ≠ o2.target) :
    (AddOp.apply o2 (AddOp.apply o1 b)).build =
      (AddOp.apply o1 (AddOp.apply o2 b)).build := by
  cases o1 <;> cases o2 <;>
    first
    | (exact absurd rfl h)
    | (simp only [AddOp.apply, PropertyQueryBuilder.addTypeFilter,
        PropertyQueryBuilder.addPriceFilter, PropertyQueryBuilder.addLocationFilter,
        PropertyQueryBuilder.addCityFilter, PropertyQueryBuilder.addBedroomFilter,
        PropertyQueryBuilder.addBathroomFilter,
        PropertyQueryBuilder.addAmenitiesFilter, PropertyQueryBuilder.build] <;>
       split_ifs <;> rfl)

/-- C8: witness — `addTypeFilter` and `addBedroomFilter` commute on a fresh
builder. -/
theorem claim_C8_witness :
    (AddOp.apply (.bedroomsF 2)
        (AddOp.apply (.typeF "sale") (PropertyQueryBuilder.create {}))).build =
      (AddOp.apply (.typeF "sale")
        (AddOp.apply (.bedroomsF 2) (PropertyQueryBuilder.create {}))).build :=
  claim_C8 (PropertyQueryBuilder.create {}) (.typeF "sale") (.bedroomsF 2)
    (by decide)

/-- C9: when the archived parameter is present but neither `"true"` nor
`"false"`, the query built by `getProperties` carries no archived constraint
at all — so records match irrespective of their archived flag — whereas an
absent archived parameter writes `archived: false`, which rejects archived
records and accepts non-archived ones. -/
theorem claim_C9 (p : PropertySearchParams) (s : String)
    (h1 : p.archived = some s) (h2 : s ≠ "true") (h3 : s ≠ "false") :
    (getPropertiesQuery p).archived = none ∧
    (∀ flag : Bool, boolCondMatches (getPropertiesQuery p).archived flag = true) ∧
    (getPropertiesQuery { p with archived := none }).archived = some false ∧
    boolCondMatches (some false) true = false ∧
    boolCondMatches (some false) false = true := by
  have hq : (getPropertiesQuery p).archived = none := by
    unfold getPropertiesQuery
    rw [h1]
    unfold applyArchivedFilter
    simp only [h2, h3, if_false]
    have : (buildPropertyFilters p).build.archived = none :=
      buildPropertyFilters_archived p
    simpa using this
  refine ⟨hq, ?_, ?_, rfl, rfl⟩
  · intro flag
    rw [hq]
    rfl
  · unfold getPropertiesQuery applyArchivedFilter
    rfl

/-- C9: witness at the concrete request `archived = "1"` (and its
archived-absent variant). -/
theorem claim_C9_witness :
    (getPropertiesQuery { archived := some "1" }).archived = none ∧
    (getPropertiesQuery {}).archived = some false := by
  have h := claim_C9 { archived := some "1" } "1" rfl (by decide) (by decide)
  exact ⟨h.1, h.2.2.1⟩

/-- C10: with geospatial mode enabled, the geospatial operation is still a
complete no-op whenever any one of latitude, longitude or radius equals 0 —
a center on the equator or the prime meridian can never be installed. -/
theorem claim_C10 (b : PropertyQueryBuilder) (lat lng radius : Int)
    (hg : b.options.enableGeospatial = true)
    (h : lat = 0 ∨ lng = 0 ∨ radius = 0) :
    b.addGeospatialFilter lat lng radius = b ∧
    (b.addGeospatialFilter lat lng radius).build.geoNear = b.build.geoNear := by
  have hb : b.addGeospatialFilter lat lng radius = b := by
    unfold PropertyQueryBuilder.addGeospatialFilter
    rcases h with rfl | rfl | rfl <;> simp
  exact ⟨hb, by rw [hb]⟩

/-- C10: witness — latitude 0 with geospatial mode enabled leaves the builder
untouched. -/
theorem claim_C10_witness :
    (PropertyQueryBuilder.create
        { enableGeospatial := some true }).addGeospatialFilter 0 5 700 =
      PropertyQueryBuilder.create { enableGeospatial := some true } :=
  (claim_C10 (PropertyQueryBuilder.create { enableGeospatial := some true })
    0 5 700 rfl (Or.inl rfl)).1
